import Mathlib

/-!
# Verification of the Spatial Impact Assessment engine

Shallow embedding of the impact-calculation and spatial-analysis services of
the GIS Disaster Impact Visualizer backend
(`src/backend/src/services/impactCalculation.js`,
`src/backend/src/services/spatialAnalysis.js`, the infrastructure controller
and the global error handler), together with proofs of the spec's claims
about them.

JavaScript numbers are modelled as exact rationals wherever only finite
values arise; the special IEEE-754 values `NaN` and `±Infinity`, which the
vulnerability-score computation can produce, are modelled explicitly by the
`JNum` type.  Database queries are modelled by explicit environments: each
query outcome is an `Except` value supplied as input, and the SQL row
computations (filtering, aggregation, ordering) are translated directly.
-/

/-! ## Economic scoring (`impactCalculation.js`, `estimateEconomicLoss` lines 114-145) -/

/-- Severity → base loss per person, `impactCalculation.js` lines 117-122.
The JS lookup `basePerPersonLoss[severity] || 10000` (line 136) defaults to
10000 for any unrecognized severity; no table entry is falsy, so folding the
`|| 10000` into the match default is exact. -/
def basePerPersonLoss (severity : String) : ℚ :=
  match severity with
  | "minor" => 5000
  | "moderate" => 15000
  | "severe" => 40000
  | "extreme" => 100000
  | _ => 10000

/-- Disaster category → multiplier, `impactCalculation.js` lines 125-134.
The JS lookup `typeMultipliers[type] || 1.0` (line 137) defaults to 1.0 for
any unrecognized category; no table entry is falsy. -/
def typeMultipliers (category : String) : ℚ :=
  match category with
  | "wildfire" => 1.5
  | "earthquake" => 2.0
  | "flood" => 1.2
  | "hurricane" => 1.8
  | "tornado" => 1.6
  | "severe_weather" => 0.8
  | "drought" => 1.0
  | "winter_storm" => 0.9
  | _ => 1.0

/-- The severities carried by the `severity_level` enum of the schema. -/
def recognizedSeverities : List String := ["minor", "moderate", "severe", "extreme"]

/-- The categories carried by the `disaster_type` enum of the schema. -/
def recognizedCategories : List String :=
  ["wildfire", "earthquake", "flood", "hurricane", "tornado", "severe_weather",
   "drought", "winter_storm"]

/-- Pure core of `estimateEconomicLoss` (`impactCalculation.js` lines 136-145),
once the disaster row `(type, severity, area_sq_km)` has been fetched:
`Math.round(affectedPopulation * perPersonLoss * typeMultiplier + (area_sq_km || 0) * 500000)`.
`area_sq_km` is a nullable column, hence `Option`; the JS `|| 0` maps null to 0.
JS `Math.round x = ⌊x + 1/2⌋`, which is Mathlib's `round`. -/
def estimateLoss (category severity : String) (affectedPopulation : ℚ)
    (area_sq_km : Option ℚ) : ℤ :=
  let perPersonLoss := basePerPersonLoss severity
  let typeMultiplier := typeMultipliers category
  let estimatedLoss := affectedPopulation * perPersonLoss * typeMultiplier
  let areaLoss := (area_sq_km.getD 0) * 500000
  round (estimatedLoss + areaLoss)

/-! ## JavaScript numbers with IEEE-754 special values -/

/-- A JavaScript (IEEE-754 double) number as it occurs in
`calculateVulnerabilityScore`: every finite value arising there is an exact
rational, so finite doubles are modelled by `ℚ`; `NaN` and the two infinities
are explicit.  (`inf true` is `+Infinity`, `inf false` is `-Infinity`.) -/
inductive JNum where
  | nan : JNum
  | inf : Bool → JNum
  | fin : ℚ → JNum
deriving DecidableEq

/-- IEEE division as JS `/` performs it on these values: `0/0` is `NaN`,
`x/0` for `x ≠ 0` is a signed infinity, finite by finite nonzero is exact. -/
def JNum.div : JNum → JNum → JNum
  | nan, _ => nan
  | _, nan => nan
  | inf _, inf _ => nan
  | inf s, fin b => if b < 0 then inf (!s) else inf s
  | fin _, inf _ => fin 0
  | fin a, fin b =>
      if b = 0 then (if a = 0 then nan else if a < 0 then inf false else inf true)
      else fin (a / b)

/-- IEEE multiplication: `0 * Infinity` is `NaN`, signs multiply. -/
def JNum.mul : JNum → JNum → JNum
  | nan, _ => nan
  | _, nan => nan
  | inf s, inf t => inf (s == t)
  | inf s, fin b => if b = 0 then nan else if b < 0 then inf (!s) else inf s
  | fin a, inf t => if a = 0 then nan else if a < 0 then inf (!t) else inf t
  | fin a, fin b => fin (a * b)

/-- IEEE addition: opposite infinities give `NaN`. -/
def JNum.add : JNum → JNum → JNum
  | nan, _ => nan
  | _, nan => nan
  | inf s, inf t => if s = t then inf s else nan
  | inf s, fin _ => inf s
  | fin _, inf t => inf t
  | fin a, fin b => fin (a + b)

/-- JS `Math.round`: `⌊x + 1/2⌋` on finite values, identity on `±Infinity`,
`NaN` on `NaN`. -/
def jsRound : JNum → JNum
  | .nan => .nan
  | .inf s => .inf s
  | .fin a => .fin ((round a : ℤ) : ℚ)

/-- JS `Math.min`: `NaN` if either argument is `NaN`, otherwise the smaller
value (`Math.min(100, Infinity) = 100`). -/
def jsMin : JNum → JNum → JNum
  | .nan, _ => .nan
  | _, .nan => .nan
  | .inf false, _ => .inf false
  | _, .inf false => .inf false
  | .inf true, y => y
  | x, .inf true => x
  | .fin a, .fin b => .fin (Min.min a b)

/-! ## Vulnerability scoring (`impactCalculation.js`, `calculateVulnerabilityScore` lines 157-180) -/

/-- The demographics record destructured on lines 158-164; `Option` models an
absent (undefined) field, for which the JS destructuring defaults apply
(counts default to 0, `population` defaults to 1). -/
structure Demographics where
  elderly_population : Option ℚ
  children_population : Option ℚ
  disabled_population : Option ℚ
  low_income_population : Option ℚ
  population : Option ℚ
deriving DecidableEq

/-- Function `calculateVulnerabilityScore` (`impactCalculation.js` lines 157-180),
translated clause by clause over `JNum`: each percentage is
`(count / population) * 100` (lines 167-170), the score is the weighted sum
with weights 0.3 / 0.2 / 0.3 / 0.2 (lines 173-177), and the result is
`Math.min(100, Math.round(score))` (line 179).  When `population = 0` is
supplied, the divisions follow IEEE semantics (`0/0 = NaN`, `x/0 = ±∞`). -/
def calculateVulnerabilityScore (demographics : Demographics) : JNum :=
  let elderly_population := demographics.elderly_population.getD 0
  let children_population := demographics.children_population.getD 0
  let disabled_population := demographics.disabled_population.getD 0
  let low_income_population := demographics.low_income_population.getD 0
  let population := demographics.population.getD 1
  let elderlyPct := ((JNum.fin elderly_population).div (JNum.fin population)).mul (JNum.fin 100)
  let childrenPct := ((JNum.fin children_population).div (JNum.fin population)).mul (JNum.fin 100)
  let disabledPct := ((JNum.fin disabled_population).div (JNum.fin population)).mul (JNum.fin 100)
  let lowIncomePct := ((JNum.fin low_income_population).div (JNum.fin population)).mul (JNum.fin 100)
  let score :=
    (((elderlyPct.mul (JNum.fin 0.3)).add
        (childrenPct.mul (JNum.fin 0.2))).add
      (disabledPct.mul (JNum.fin 0.3))).add
      (lowIncomePct.mul (JNum.fin 0.2))
  jsMin (JNum.fin 100) (jsRound score)

/-- The finite path of `calculateVulnerabilityScore` as a function of the four
subpopulation percentages (the values computed on lines 167-170): the weighted
sum of lines 173-177 followed by `Math.min(100, Math.round(score))`.  This is
what the source computes whenever `population ≠ 0`, see
`calculateVulnerabilityScore_eq_weighted`. -/
def weightedVulnerability (elderlyPct childrenPct disabledPct lowIncomePct : ℚ) : ℤ :=
  Min.min 100
    (round (elderlyPct * 0.3 + childrenPct * 0.2 + disabledPct * 0.3 + lowIncomePct * 0.2))

/-- With a nonzero population every intermediate value is finite and
`calculateVulnerabilityScore` computes exactly the clamped weighted sum of the
four percentages. -/
theorem calculateVulnerabilityScore_eq_weighted (e c d l p : ℚ) (hp : p ≠ 0) :
    calculateVulnerabilityScore ⟨some e, some c, some d, some l, some p⟩
      = JNum.fin ((weightedVulnerability (e / p * 100) (c / p * 100) (d / p * 100)
          (l / p * 100) : ℤ) : ℚ) := by
  simp only [calculateVulnerabilityScore, Option.getD_some, JNum.div, if_neg hp,
    JNum.mul, JNum.add, jsRound, jsMin, weightedVulnerability]
  norm_num [Int.cast_min]

/-- Rounding `⌊x + 1/2⌋` is monotone. -/
theorem roundRatMono {a b : ℚ} (h : a ≤ b) : round a ≤ round b := by
  rw [round_eq, round_eq]
  exact Int.floor_le_floor (by linarith)

/-- IEEE addition absorbs `NaN` on the right. -/
theorem JNum.add_nan (x : JNum) : x.add .nan = .nan := by cases x <;> rfl

/-- IEEE multiplication absorbs `NaN` on the right. -/
theorem JNum.mul_nan (x : JNum) : x.mul .nan = .nan := by cases x <;> rfl

/-- IEEE addition absorbs `NaN` on the left. -/
theorem JNum.nan_add (x : JNum) : JNum.nan.add x = .nan := by
  cases x with
  | nan => rfl
  | inf b => cases b <;> rfl
  | fin a => rfl

/-- JS `Math.round` of `NaN` is `NaN`. -/
theorem jsRound_nan : jsRound .nan = .nan := rfl

/-- JS `Math.min` absorbs `NaN` on the right. -/
theorem jsMin_nan (x : JNum) : jsMin x .nan = .nan := by
  cases x with
  | nan => rfl
  | inf b => cases b <;> rfl
  | fin a => rfl

/-- C7: `vulnerabilityScore` is the weighted sum of the four subpopulation
percentages with weights elderly 0.3, children 0.2, disabled 0.3, low-income
0.2, clamped to 100 (first conjunct, for any nonzero population); it never
exceeds 100 (second conjunct) and is monotonically non-decreasing in each of
the four input percentages with the others held fixed (last four conjuncts). -/
theorem vulnerabilityScore_weighted_bounded_monotone (ep cp dp lp : ℚ) :
    (∀ e c d l p : ℚ, p ≠ 0 →
        calculateVulnerabilityScore ⟨some e, some c, some d, some l, some p⟩
          = JNum.fin ((weightedVulnerability (e / p * 100) (c / p * 100) (d / p * 100)
              (l / p * 100) : ℤ) : ℚ))
    ∧ weightedVulnerability ep cp dp lp ≤ 100
    ∧ (∀ x, ep ≤ x → weightedVulnerability ep cp dp lp ≤ weightedVulnerability x cp dp lp)
    ∧ (∀ x, cp ≤ x → weightedVulnerability ep cp dp lp ≤ weightedVulnerability ep x dp lp)
    ∧ (∀ x, dp ≤ x → weightedVulnerability ep cp dp lp ≤ weightedVulnerability ep cp x lp)
    ∧ (∀ x, lp ≤ x → weightedVulnerability ep cp dp lp ≤ weightedVulnerability ep cp dp x) := by
  refine ⟨fun e c d l p hp => calculateVulnerabilityScore_eq_weighted e c d l p hp,
    min_le_left _ _, ?_, ?_, ?_, ?_⟩
  all_goals
    intro x hx
    exact min_le_min le_rfl (roundRatMono (by norm_num; linarith))

/-- Witness for `vulnerabilityScore_weighted_bounded_monotone` at concrete inputs. -/
theorem vulnerabilityScore_weighted_bounded_monotone_witness :
    calculateVulnerabilityScore ⟨some 10, some 10, some 10, some 10, some 100⟩
        = JNum.fin ((weightedVulnerability (10 / 100 * 100) (10 / 100 * 100)
            (10 / 100 * 100) (10 / 100 * 100) : ℤ) : ℚ)
      ∧ weightedVulnerability 5 6 7 8 ≤ 100
      ∧ weightedVulnerability 5 6 7 8 ≤ weightedVulnerability 9 6 7 8 := by
  obtain ⟨h1, h2, h3, -⟩ := vulnerabilityScore_weighted_bounded_monotone 5 6 7 8
  exact ⟨h1 10 10 10 10 100 (by norm_num), h2, h3 9 (by norm_num)⟩

/-- C2: for every recognized category and severity, `estimateLoss` is
`affectedPopulation × basePerCapitaLoss[severity] × categoryMultiplier[category]
+ areaSqKm × 500000`, rounded to the nearest whole currency unit; the tables
give severe ↦ 40000 per person and earthquake ↦ 2.0, so
`estimateLoss('earthquake','severe', 1000, 0) = 80,000,000`. -/
theorem estimateLoss_formula (category severity : String) (pop area : ℚ)
    (hc : category ∈ recognizedCategories) (hs : severity ∈ recognizedSeverities) :
    estimateLoss category severity pop (some area)
        = round (pop * basePerPersonLoss severity * typeMultipliers category + area * 500000)
      ∧ basePerPersonLoss "severe" = 40000
      ∧ typeMultipliers "earthquake" = 2
      ∧ estimateLoss "earthquake" "severe" 1000 (some 0) = 80000000 := by
  refine ⟨rfl, rfl, by norm_num [typeMultipliers], ?_⟩
  norm_num [estimateLoss, basePerPersonLoss, typeMultipliers, round_eq]

/-- Witness for `estimateLoss_formula` at the spec's concrete scenario. -/
theorem estimateLoss_formula_witness :
    estimateLoss "earthquake" "severe" 1000 (some 0)
        = round ((1000 : ℚ) * basePerPersonLoss "severe" * typeMultipliers "earthquake"
            + 0 * 500000)
      ∧ estimateLoss "earthquake" "severe" 1000 (some 0) = 80000000 := by
  obtain ⟨h1, -, -, h4⟩ :=
    estimateLoss_formula "earthquake" "severe" 1000 0 (by decide) (by decide)
  exact ⟨h1, h4⟩

/-- C9: an unrecognized severity does not fail but defaults the per-capita
loss to the mid-tier constant 10000, an unrecognized category defaults the
multiplier to 1.0, and the (total) loss estimate is thus defined for every
category/severity input. -/
theorem estimateLoss_defaults (category severity : String) (pop : ℚ) (area : Option ℚ)
    (hs : severity ∉ recognizedSeverities) (hc : category ∉ recognizedCategories) :
    basePerPersonLoss severity = 10000
      ∧ typeMultipliers category = 1
      ∧ estimateLoss category severity pop area
          = round (pop * 10000 * 1 + (area.getD 0) * 500000) := by
  have h1 : basePerPersonLoss severity = 10000 := by
    unfold basePerPersonLoss
    split
    · exact absurd (by decide) hs
    · exact absurd (by decide) hs
    · exact absurd (by decide) hs
    · exact absurd (by decide) hs
    · rfl
  have h2 : typeMultipliers category = 1 := by
    unfold typeMultipliers
    split
    · exact absurd (by decide) hc
    · exact absurd (by decide) hc
    · exact absurd (by decide) hc
    · exact absurd (by decide) hc
    · exact absurd (by decide) hc
    · exact absurd (by decide) hc
    · exact absurd (by decide) hc
    · exact absurd (by decide) hc
    · norm_num
  exact ⟨h1, h2, by simp [estimateLoss, h1, h2]⟩

/-- Witness for `estimateLoss_defaults` on an unrecognized category/severity pair. -/
theorem estimateLoss_defaults_witness :
    basePerPersonLoss "biblical" = 10000
      ∧ typeMultipliers "locusts" = 1
      ∧ estimateLoss "locusts" "biblical" 3 none
          = round ((3 : ℚ) * 10000 * 1 + ((none : Option ℚ).getD 0) * 500000) :=
  estimateLoss_defaults "locusts" "biblical" 3 none (by decide) (by decide)

/-- C10 counterexample: with population present and equal to 0 but all four
subpopulation counts positive, every percentage is `+Infinity`, the weighted
sum is `+Infinity`, and `Math.min(100, Infinity)` is the plain number 100 —
a number inside `[0,100]`, so a population of 0 does *not* in general yield a
result that is not a number in `[0,100]`. -/
theorem vulnerabilityScore_popZero_counterexample :
    calculateVulnerabilityScore ⟨some 1, some 1, some 1, some 1, some 0⟩ = JNum.fin 100
      ∧ (0 : ℚ) ≤ 100 ∧ (100 : ℚ) ≤ 100 := by
  refine ⟨?_, by norm_num, by norm_num⟩
  norm_num [calculateVulnerabilityScore, JNum.div, JNum.mul, JNum.add, jsRound, jsMin]

/-- C10 (amended): a missing population field defaults to 1; with population
present and equal to 0 the result is `NaN` whenever at least one subpopulation
count is zero (in particular with all counts zero), but with all four counts
positive the result is the number 100. -/
theorem vulnerabilityScore_popZero (e c d l : ℚ) :
    (calculateVulnerabilityScore ⟨some e, some c, some d, some l, none⟩
        = calculateVulnerabilityScore ⟨some e, some c, some d, some l, some 1⟩)
    ∧ calculateVulnerabilityScore ⟨some 0, some 0, some 0, some 0, some 0⟩ = JNum.nan
    ∧ ((e = 0 ∨ c = 0 ∨ d = 0 ∨ l = 0) →
        calculateVulnerabilityScore ⟨some e, some c, some d, some l, some 0⟩ = JNum.nan)
    ∧ (0 < e → 0 < c → 0 < d → 0 < l →
        calculateVulnerabilityScore ⟨some e, some c, some d, some l, some 0⟩
          = JNum.fin 100) := by
  refine ⟨rfl, by simp [calculateVulnerabilityScore, JNum.div, JNum.mul, JNum.add,
    jsRound, jsMin], ?_, ?_⟩
  · intro h
    have hnan : ∀ w : ℚ,
        (((JNum.fin 0).div (JNum.fin 0)).mul (JNum.fin 100)).mul (JNum.fin w)
          = JNum.nan := fun w => rfl
    rcases h with h | h | h | h <;> subst h <;>
      simp only [calculateVulnerabilityScore, Option.getD_some, hnan,
        JNum.add_nan, JNum.nan_add, jsRound_nan, jsMin_nan]
  · intro he hc hd hl
    norm_num [calculateVulnerabilityScore, JNum.div, JNum.mul, JNum.add, jsRound, jsMin,
      he.ne', hc.ne', hd.ne', hl.ne', not_lt.mpr he.le, not_lt.mpr hc.le,
      not_lt.mpr hd.le, not_lt.mpr hl.le]

/-- Witness for `vulnerabilityScore_popZero` at concrete inputs. -/
theorem vulnerabilityScore_popZero_witness :
    calculateVulnerabilityScore ⟨some 1, some 0, some 2, some 3, some 0⟩ = JNum.nan
      ∧ calculateVulnerabilityScore ⟨some 2, some 2, some 2, some 2, some 0⟩
          = JNum.fin 100 := by
  refine ⟨(vulnerabilityScore_popZero 1 0 2 3).2.2.1 (Or.inr (Or.inl rfl)), ?_⟩
  exact (vulnerabilityScore_popZero 2 2 2 2).2.2.2 (by norm_num) (by norm_num)
    (by norm_num) (by norm_num)

/-! ## Population aggregation (`spatialAnalysis.js`, `calculateAffectedPopulation`
lines 15-36, and the population part of `getDisasterImpactSummary` lines 273-283) -/

/-- A row of the `census_blocks` table (`001_initial_schema.sql`):
`population` is NOT NULL, the other counts are nullable.  The polygon
geometry is a type parameter, the PostGIS `ST_Intersects` predicate is
supplied as a function. -/
structure CensusBlock (G : Type) where
  geometry : G
  population : ℤ
  households : Option ℤ
  elderly_population : Option ℤ
  children_population : Option ℤ
  disabled_population : Option ℤ

/-- SQL `SUM` over a selected column: NULL values are ignored and the sum of
an empty selection is NULL. -/
def sqlSum (vals : List (Option ℤ)) : Option ℤ :=
  match vals.filterMap id with
  | [] => none
  | xs => some xs.sum

/-- The single row returned by the aggregation query of
`calculateAffectedPopulation` (lines 16-27). -/
structure PopulationRow where
  total_population : Option ℤ
  total_households : Option ℤ
  elderly_population : Option ℤ
  children_population : Option ℤ
  disabled_population : Option ℤ
  affected_census_blocks : ℕ
deriving DecidableEq

/-- Function `calculateAffectedPopulation` (lines 15-36): the query keeps the census
blocks whose polygon `ST_Intersects` the disaster geometry, sums each count
column over them and counts the selected rows. -/
def calculateAffectedPopulation {G : Type} (st_intersects : G → G → Bool)
    (census_blocks : List (CensusBlock G)) (disasterGeometry : G) : PopulationRow :=
  let affected :=
    census_blocks.filter (fun cb => st_intersects cb.geometry disasterGeometry)
  { total_population := sqlSum (affected.map (fun cb => some cb.population))
    total_households := sqlSum (affected.map (fun cb => cb.households))
    elderly_population := sqlSum (affected.map (fun cb => cb.elderly_population))
    children_population := sqlSum (affected.map (fun cb => cb.children_population))
    disabled_population := sqlSum (affected.map (fun cb => cb.disabled_population))
    affected_census_blocks := affected.length }

/-- The population object built by `getDisasterImpactSummary` (lines 273-283). -/
structure PopulationSummary where
  total : ℤ
  households : ℤ
  elderly : ℤ
  children : ℤ
  disabled : ℤ
  affected_census_blocks : ℕ
deriving DecidableEq

/-- The coercion `parseInt(x) || 0` applied to a nullable integer column value:
`parseInt(null)` is `NaN` and `NaN || 0` is 0; an integer maps to itself
(0 maps to 0 since `0 || 0 = 0`). -/
def parseIntOr0 (v : Option ℤ) : ℤ := v.getD 0

/-- The `population` field of the summary (lines 274-283). -/
def summaryPopulation (r : PopulationRow) : PopulationSummary :=
  { total := parseIntOr0 r.total_population
    households := parseIntOr0 r.total_households
    elderly := parseIntOr0 r.elderly_population
    children := parseIntOr0 r.children_population
    disabled := parseIntOr0 r.disabled_population
    affected_census_blocks := r.affected_census_blocks }

/-- C5: when no census block's polygon intersects the disaster geometry, the
aggregation succeeds (it is a total function) and every reported count —
total population, households, elderly, children, disabled and block count —
is the number zero. -/
theorem affectedPopulation_empty {G : Type} (st_intersects : G → G → Bool)
    (census_blocks : List (CensusBlock G)) (disasterGeometry : G)
    (h : ∀ cb ∈ census_blocks, st_intersects cb.geometry disasterGeometry = false) :
    summaryPopulation (calculateAffectedPopulation st_intersects census_blocks
        disasterGeometry) = ⟨0, 0, 0, 0, 0, 0⟩ := by
  have hf : census_blocks.filter
      (fun cb => st_intersects cb.geometry disasterGeometry) = [] :=
    List.filter_eq_nil_iff.mpr (fun cb hcb => by simp [h cb hcb])
  simp [calculateAffectedPopulation, summaryPopulation, sqlSum, parseIntOr0, hf]

/-- Witness for `affectedPopulation_empty`: one non-intersecting block. -/
theorem affectedPopulation_empty_witness :
    summaryPopulation (calculateAffectedPopulation (fun _ _ => false)
        [⟨0, 12000, some 4000, some 100, some 200, some 300⟩] (0 : ℕ))
      = ⟨0, 0, 0, 0, 0, 0⟩ :=
  affectedPopulation_empty _ _ _ (fun _ _ => rfl)

/-! ## Infrastructure proximity search (`spatialAnalysis.js`,
`findNearestInfrastructure` lines 185-217) -/

/-- A row of the `infrastructure` table; the point geometry is a type
parameter. -/
structure InfrastructureRow (P : Type) where
  id : ℕ
  name : String
  type : String
  location : P
  address : String
  capacity : Option ℕ
  operational_status : Bool

/-- Function `findNearestInfrastructure` (lines 185-217): the SQL keeps rows
with `type = $3 AND operational_status = true`, orders them by the geometry
KNN operator `location <-> point` (line 202) — planar Euclidean distance over
the raw degree coordinates, supplied as `knnDistance` — limits to `$4`, and
reports `ST_Distance(location::geography, point) / 1000` (lines 195-198) —
geodesic meters divided into kilometers, supplied as `st_distance`.  The
ordering key and the reported measure are two distinct computations in the
query and need not order points the same way.  `ORDER BY` fixes only the key
order and imposes no secondary tie-break; the embedding realizes it as a
stable sort over the stored row order, one admissible execution. -/
def findNearestInfrastructure {P : Type} (knnDistance st_distance : P → P → ℚ)
    (infrastructure : List (InfrastructureRow P)) (point : P)
    (infrastructureType : String) (limit : ℕ) : List (InfrastructureRow P × ℚ) :=
  let eligible := infrastructure.filter
    (fun i => i.type == infrastructureType && i.operational_status)
  let ordered := eligible.insertionSort
    (fun a b => knnDistance a.location point ≤ knnDistance b.location point)
  (ordered.take limit).map (fun i => (i, st_distance i.location point / 1000))

/-- Squared planar distance of raw coordinate pairs: an order-faithful key
for the geometry operator `<->`, whose Euclidean value orders points exactly
as its square does. -/
def knnDegSq (p q : ℚ × ℚ) : ℚ := (p.1 - q.1) ^ 2 + (p.2 - q.2) ^ 2

/-- Two operational hospitals near latitude 60°, coordinates in tenths of a
degree: the query point sits at (0°, 60.0°), site 1 lies 0.9° east of it,
site 2 lies 0.6° north.  At this latitude a degree of longitude spans about
55,600 m while a degree of latitude spans about 111,200 m, so the geodesic
distances are ≈50,040 m to site 1 and ≈66,720 m to site 2 — the reverse of
the planar degree order. -/
def highLatHospitals : List (InfrastructureRow (ℚ × ℚ)) :=
  [⟨1, "East", "hospital", (9, 600), "", none, true⟩,
   ⟨2, "North", "hospital", (0, 606), "", none, true⟩]

/-- Geodesic meters between the concrete locations of `highLatHospitals` and
the query point, on the 55,600 m-per-degree-of-longitude /
111,200 m-per-degree-of-latitude scale of latitude 60°. -/
def geoDist60 (p q : ℚ × ℚ) : ℚ :=
  if p = (9, 600) ∧ q = (0, 600) then 50040
  else if p = (0, 606) ∧ q = (0, 600) then 66720
  else 0

/-- Two operational hospitals at the same distance from the query point,
stored with identifier 2 before identifier 1. -/
def tiedHospitals : List (InfrastructureRow Unit) :=
  [⟨2, "B", "hospital", (), "", none, true⟩, ⟨1, "A", "hospital", (), "", none, true⟩]

/-- C3 counterexample, refuting both parts of the ordering claim.  First:
at equal distances the query returns the rows in stored order — identifiers
2 then 1, not the identifier order 1 then 2 — so equal-distance sites are
not ordered by their identifier.  Second: the rows are ordered by the planar
degree key while the reported distances are geodesic, and near latitude 60°
the site 0.6° north sorts before the site 0.9° east although its reported
geodesic distance (66.72 km) is the larger of the two (50.04 km) — the
returned list is not ascending by the reported distance. -/
theorem findNearest_order_counterexample :
    (((findNearestInfrastructure (fun _ _ => 7) (fun _ _ => 7) tiedHospitals ()
          "hospital" 5).map (fun r => r.1.id) = [2, 1])
      ∧ (1 : ℕ) < 2)
    ∧ (((findNearestInfrastructure knnDegSq geoDist60 highLatHospitals (0, 600)
          "hospital" 5).map (fun r => r.2) = [66720 / 1000, 50040 / 1000])
      ∧ (50040 / 1000 : ℚ) < 66720 / 1000) := by
  refine ⟨⟨rfl, by norm_num⟩, ?_, by norm_num⟩
  norm_num [findNearestInfrastructure, knnDegSq, geoDist60, highLatHospitals,
    List.insertionSort, List.orderedInsert]

/-- C3 (amended): `nearest` returns only operational sites of the requested
category, each with reported distance `ST_Distance / 1000`, and at most `k`
results; the list ascends by the KNN ordering key `location <-> point`, not
necessarily by the reported geodesic distance, and equal-key sites keep
their stored order rather than being ordered by identifier. -/
theorem findNearest_sorted_operational {P : Type} (knnDistance st_distance : P → P → ℚ)
    (infrastructure : List (InfrastructureRow P)) (point : P)
    (infrastructureType : String) (limit : ℕ) :
    (∀ r ∈ findNearestInfrastructure knnDistance st_distance infrastructure point
        infrastructureType limit,
      r.1.operational_status = true ∧ r.1.type = infrastructureType
        ∧ r.2 = st_distance r.1.location point / 1000)
    ∧ ((findNearestInfrastructure knnDistance st_distance infrastructure point
          infrastructureType limit).map
        (fun r => knnDistance r.1.location point)).Sorted (· ≤ ·)
    ∧ (findNearestInfrastructure knnDistance st_distance infrastructure point
        infrastructureType limit).length ≤ limit := by
  haveI ht : IsTotal (InfrastructureRow P)
      (fun a b => knnDistance a.location point ≤ knnDistance b.location point) :=
    ⟨fun a b => le_total _ _⟩
  haveI htr : IsTrans (InfrastructureRow P)
      (fun a b => knnDistance a.location point ≤ knnDistance b.location point) :=
    ⟨fun _ _ _ hab hbc => le_trans hab hbc⟩
  refine ⟨?_, ?_, ?_⟩
  · intro r hr
    simp only [findNearestInfrastructure, List.mem_map] at hr
    obtain ⟨i, hi, rfl⟩ := hr
    have hi' := List.mem_of_mem_take hi
    rw [(List.perm_insertionSort _ _).mem_iff, List.mem_filter] at hi'
    obtain ⟨-, hcond⟩ := hi'
    rw [Bool.and_eq_true, beq_iff_eq] at hcond
    exact ⟨hcond.2, hcond.1, rfl⟩
  · simp only [findNearestInfrastructure, List.map_map]
    have hsorted : List.Pairwise
        (fun a b : InfrastructureRow P =>
          knnDistance a.location point ≤ knnDistance b.location point)
        (List.take limit ((infrastructure.filter
            (fun i => i.type == infrastructureType && i.operational_status)).insertionSort
          (fun a b => knnDistance a.location point ≤ knnDistance b.location point))) :=
      List.Pairwise.sublist (List.take_sublist _ _) (List.sorted_insertionSort _ _)
    exact List.Pairwise.map _ (fun a b hab => hab) hsorted
  · simp only [findNearestInfrastructure, List.length_map, List.length_take]
    exact min_le_left _ _

/-! ## The nearest-infrastructure endpoint: controller `findNearest`
(infrastructure controller lines 99-131), the `infrastructure_type` enum
(`001_initial_schema.sql`), and the database branch of the global error
handler -/

/-- The nine values of the `infrastructure_type` Postgres enum declared in
`001_initial_schema.sql`; the `type` column of `infrastructure` has this
enum type. -/
def infrastructureTypeEnum : List String :=
  ["hospital", "emergency_shelter", "fire_station", "police_station",
   "power_station", "water_treatment", "school", "airport", "bridge"]

/-- An HTTP response as the controller produces it: a success payload, or an
error status with a message. -/
inductive HttpResponse (α : Type) where
  | ok (payload : α) : HttpResponse α
  | err (status : ℕ) (message : String) : HttpResponse α

/-- The database-error branch of the global error handler: a Postgres error
carrying SQLSTATE 23505 maps to 409, 23503 to 400, 22P02 (invalid text
representation — the code Postgres raises for a string that is not a value of
an enum type) to 400; anything else falls to the default branch, status 500
with the error's message. -/
def errorHandler {α : Type} (code : Option String) (message : String) : HttpResponse α :=
  match code with
  | some "23505" => .err 409 "Resource already exists"
  | some "23503" => .err 400 "Invalid reference to related resource"
  | some "22P02" => .err 400 "Invalid data format"
  | _ => .err 500 message

/-- Execution of the nearest-infrastructure query against the schema:
comparing the enum-typed `type` column with a parameter that is not one of
the enum's values makes Postgres abort the query with SQLSTATE 22P02 before
producing rows; otherwise the query yields the filtered, ordered, limited
rows of `findNearestInfrastructure`. -/
def runNearestQuery {P : Type} (knnDistance st_distance : P → P → ℚ)
    (infrastructure : List (InfrastructureRow P)) (point : P)
    (infrastructureType : String) (limit : ℕ) :
    Except (String × String) (List (InfrastructureRow P × ℚ)) :=
  if infrastructureType ∈ infrastructureTypeEnum then
    .ok (findNearestInfrastructure knnDistance st_distance infrastructure point
      infrastructureType limit)
  else
    .error ("22P02", "invalid input value for enum infrastructure_type")

/-- Controller `findNearest` (lines 99-131): a missing — or empty, both are
JS-falsy — `type` query parameter is rejected with status 400 and the message
of line 112 before any query runs; a query error is passed to the global
error handler via `next(error)`. -/
def findNearest {P : Type} (knnDistance st_distance : P → P → ℚ)
    (infrastructure : List (InfrastructureRow P)) (point : P)
    (type? : Option String) (limit : ℕ) :
    HttpResponse (List (InfrastructureRow P × ℚ)) :=
  match type? with
  | none => .err 400 "Infrastructure type is required"
  | some ty =>
      if ty = "" then .err 400 "Infrastructure type is required"
      else
        match runNearestQuery knnDistance st_distance infrastructure point ty limit with
        | .ok rows => .ok rows
        | .error (code, msg) => errorHandler (some code) msg

/-- C4: `nearest` answers with a 400 invalid-argument error both when the
category parameter is absent and when it is present but not one of the
recognized infrastructure categories (the Postgres enum rejection, mapped to
400 by the error handler); in neither case is a result list returned. -/
theorem findNearest_requires_category {P : Type} (knnDistance st_distance : P → P → ℚ)
    (infrastructure : List (InfrastructureRow P)) (point : P) (ty : String) (limit : ℕ)
    (hty : ty ∉ infrastructureTypeEnum) :
    (findNearest knnDistance st_distance infrastructure point none limit
        = .err 400 "Infrastructure type is required")
    ∧ (∃ msg, findNearest knnDistance st_distance infrastructure point (some ty) limit
        = HttpResponse.err 400 msg)
    ∧ (∀ rows, findNearest knnDistance st_distance infrastructure point none limit
        ≠ .ok rows)
    ∧ (∀ rows, findNearest knnDistance st_distance infrastructure point (some ty) limit
        ≠ .ok rows) := by
  by_cases hempty : ty = ""
  · subst hempty
    refine ⟨rfl, ⟨"Infrastructure type is required", rfl⟩, ?_, ?_⟩
    · intro rows h
      exact HttpResponse.noConfusion h
    · intro rows h
      exact HttpResponse.noConfusion h
  · have hq : findNearest knnDistance st_distance infrastructure point (some ty) limit
        = HttpResponse.err 400 "Invalid data format" := by
      simp only [findNearest, if_neg hempty, runNearestQuery, if_neg hty]
      rfl
    refine ⟨rfl, ⟨"Invalid data format", hq⟩, ?_, ?_⟩
    · intro rows h
      exact HttpResponse.noConfusion h
    · intro rows h
      rw [hq] at h
      exact HttpResponse.noConfusion h

/-- Witness for `findNearest_requires_category` with an unrecognized
category. -/
theorem findNearest_requires_category_witness :
    (findNearest (fun _ _ => (0 : ℚ)) (fun _ _ => (0 : ℚ))
        ([] : List (InfrastructureRow Unit)) () none 5
        = .err 400 "Infrastructure type is required")
    ∧ (∃ msg, findNearest (fun _ _ => (0 : ℚ)) (fun _ _ => (0 : ℚ))
        ([] : List (InfrastructureRow Unit)) () (some "pub") 5
        = HttpResponse.err 400 msg) := by
  obtain ⟨h1, h2, -, -⟩ := findNearest_requires_category (fun _ _ => (0 : ℚ))
    (fun _ _ => (0 : ℚ)) ([] : List (InfrastructureRow Unit)) () "pub" 5 (by decide)
  exact ⟨h1, h2⟩

/-! ## Evacuation zones (`spatialAnalysis.js`, `createEvacuationZones`
lines 81-101) -/

/-- Geodesic buffer: the set of points within `radius` of the geometry.
This is the documented semantics of the delegated PostGIS
`ST_Buffer(geometry::geography, radius)` primitive, stated for an arbitrary
point type and an arbitrary distance function — no metric assumption is needed for
the nesting property, so the containment below holds by construction. -/
def buffer {P : Type} (dist : P → P → ℚ) (geometry : Set P) (radius : ℚ) : Set P :=
  {p | ∃ q ∈ geometry, dist p q ≤ radius}

/-- The row produced by `createEvacuationZones` (lines 82-92). -/
structure EvacuationZones (P : Type) where
  zone_1km : Set P
  zone_5km : Set P
  zone_10km : Set P
  area_1km_sq_km : ℚ
  area_5km_sq_km : ℚ
  area_10km_sq_km : ℚ

/-- Function `createEvacuationZones` (lines 81-101): three independent buffers of the
same disaster geometry at 1000, 5000 and 10000 meters, each with its area
divided by 1,000,000; the area functional is supplied, as PostGIS computes
it. -/
def createEvacuationZones {P : Type} (dist : P → P → ℚ) (st_area : Set P → ℚ)
    (geometry : Set P) : EvacuationZones P :=
  { zone_1km := buffer dist geometry 1000
    zone_5km := buffer dist geometry 5000
    zone_10km := buffer dist geometry 10000
    area_1km_sq_km := st_area (buffer dist geometry 1000) / 1000000
    area_5km_sq_km := st_area (buffer dist geometry 5000) / 1000000
    area_10km_sq_km := st_area (buffer dist geometry 10000) / 1000000 }

/-- C6: buffering the same geometry with a larger radius contains the smaller
buffer — for every distance function, i.e. structurally by construction and
not merely typically —, so the generated evacuation zones nest:
`zone_1km ⊆ zone_5km ⊆ zone_10km`. -/
theorem evacuationZones_nested {P : Type} (dist : P → P → ℚ) (st_area : Set P → ℚ)
    (geometry : Set P) (r1 r2 : ℚ) (h : r1 ≤ r2) :
    buffer dist geometry r1 ⊆ buffer dist geometry r2
    ∧ (createEvacuationZones dist st_area geometry).zone_1km
        ⊆ (createEvacuationZones dist st_area geometry).zone_5km
    ∧ (createEvacuationZones dist st_area geometry).zone_5km
        ⊆ (createEvacuationZones dist st_area geometry).zone_10km := by
  have mono : ∀ s t : ℚ, s ≤ t → buffer dist geometry s ⊆ buffer dist geometry t := by
    intro s t hst p hp
    obtain ⟨q, hq, hd⟩ := hp
    exact ⟨q, hq, hd.trans hst⟩
  exact ⟨mono r1 r2 h, mono 1000 5000 (by norm_num), mono 5000 10000 (by norm_num)⟩

/-- Witness for `evacuationZones_nested` at concrete radii on a concrete
geometry. -/
theorem evacuationZones_nested_witness :
    buffer (fun _ _ : ℚ => (0 : ℚ)) Set.univ 1000 ⊆ buffer (fun _ _ => 0) Set.univ 5000
    ∧ (createEvacuationZones (fun _ _ : ℚ => (0 : ℚ)) (fun _ => 0) Set.univ).zone_1km
        ⊆ (createEvacuationZones (fun _ _ : ℚ => (0 : ℚ)) (fun _ => 0) Set.univ).zone_5km := by
  obtain ⟨h1, h2, -⟩ := evacuationZones_nested (fun _ _ : ℚ => (0 : ℚ)) (fun _ => 0)
    Set.univ 1000 5000 (by norm_num)
  exact ⟨h1, h2⟩

/-! ## Impact assessment orchestration (`impactCalculation.js`,
`calculateFullImpact` lines 16-91 and `estimateEconomicLoss` lines 99-150;
`spatialAnalysis.js`, `getDisasterImpactSummary` lines 259-296) -/

/-- The `(type, severity, area_sq_km)` row fetched by `estimateEconomicLoss`
(lines 102-108); `severity` and `area_sq_km` are nullable columns. -/
structure DisasterRow where
  type : String
  severity : Option String
  area_sq_km : Option ℚ

/-- A row of `findAffectedInfrastructure`'s result (lines 44-74). -/
structure AffectedInfrastructureRow where
  id : ℕ
  name : String
  type : String
  capacity : Option ℕ
  operational_status : Bool
  distance_km : ℚ

/-- The row of `createEvacuationZones` as consumed by the orchestrator; the
zone geometries (GeoJSON payloads) are an abstract type parameter. -/
structure ZonesRow (Z : Type) where
  zone_1km : Z
  zone_5km : Z
  zone_10km : Z
  area_1km_sq_km : ℚ
  area_5km_sq_km : ℚ
  area_10km_sq_km : ℚ

/-- The `RETURNING id, assessment_time` row of the insert (line 62). -/
structure InsertReturning where
  id : ℕ
  assessment_time : ℕ

/-- The database interactions of one `calculateFullImpact` invocation: the
outcome of each query it issues.  `Except.error` is a rejected query (for
example a lost connection); for the disaster-details query an empty result
set (`.ok none`) is distinguished from a failed query. -/
structure OrchestratorEnv (Z : Type) where
  populationResult : Except String PopulationRow
  infrastructureResult : Except String (List AffectedInfrastructureRow)
  zonesResult : Except String (ZonesRow Z)
  disasterRowResult : Except String (Option DisasterRow)
  insertResult : Except String InsertReturning

/-- The summary object of `getDisasterImpactSummary` (lines 273-291). -/
structure ImpactSummary (Z : Type) where
  population : PopulationSummary
  infrastructure_total : ℕ
  by_type : String → ℕ
  infrastructure_details : List AffectedInfrastructureRow
  evacuation_zones : ZonesRow Z

/-- Function `getDisasterImpactSummary` (lines 259-296): `Promise.all` of the three
sub-queries — the whole summary is rejected as soon as any of the three is —
then grouping of the infrastructure rows by type (lines 268-271, the count
defaulting to 0 for an unlisted type) and the top-10 detail slice. -/
def getDisasterImpactSummary {Z : Type} (env : OrchestratorEnv Z) :
    Except String (ImpactSummary Z) :=
  match env.populationResult with
  | .error e => .error e
  | .ok population =>
    match env.infrastructureResult with
    | .error e => .error e
    | .ok infrastructure =>
      match env.zonesResult with
      | .error e => .error e
      | .ok zones =>
        .ok { population := summaryPopulation population
              infrastructure_total := infrastructure.length
              by_type := fun t => (infrastructure.filter (fun i => i.type == t)).length
              infrastructure_details := infrastructure.take 10
              evacuation_zones := zones }

/-- Function `estimateEconomicLoss` (lines 99-150).  The body is wrapped in
`try { ... } catch { return 0 }`: a failed disaster-details query, and the
`'Disaster not found'` error thrown on an empty result set (lines 110-112),
are both caught by the function's own catch block, which returns 0
(line 148).  Otherwise the loss is the pure formula `estimateLoss` on the
fetched row; a NULL severity reads as an absent lookup key and takes the
10000 default, which `estimateLoss` applied to a non-enum string models. -/
def estimateEconomicLoss {Z : Type} (env : OrchestratorEnv Z)
    (affectedPopulation : ℚ) : ℤ :=
  match env.disasterRowResult with
  | .error _ => 0
  | .ok none => 0
  | .ok (some d) =>
      estimateLoss d.type (d.severity.getD "") affectedPopulation d.area_sq_km

/-- The assessment record `calculateFullImpact` builds, inserts and returns
(lines 28-41 and 80-86): the stored columns plus the returned id, timestamp,
infrastructure details and vulnerable breakdown. -/
structure ImpactAssessment (Z : Type) where
  affected_population : ℤ
  affected_households : ℤ
  vulnerable_population : ℤ
  affected_hospitals : ℕ
  affected_shelters : ℕ
  affected_critical_infrastructure : ℕ
  estimated_economic_loss : ℤ
  affected_area_sq_km : ℚ
  evacuation_zone_1km : Z
  evacuation_zone_5km : Z
  evacuation_zone_10km : Z
  assessment_id : ℕ
  assessment_time : ℕ
  infrastructure_details : List AffectedInfrastructureRow
  vulnerable_elderly : ℤ
  vulnerable_children : ℤ
  vulnerable_disabled : ℤ

/-- Function `calculateFullImpact` (lines 16-91): obtain the impact summary, compute
the economic loss, insert the assessment row, and return the assessment with
the returned id and timestamp.  The surrounding try/catch rethrows (line 89),
so a rejection of the summary or of the insert rejects the whole call. -/
def calculateFullImpact {Z : Type} (env : OrchestratorEnv Z) :
    Except String (ImpactAssessment Z) :=
  match getDisasterImpactSummary env with
  | .error e => .error e
  | .ok impactSummary =>
    let economicLoss := estimateEconomicLoss env (impactSummary.population.total : ℚ)
    match env.insertResult with
    | .error e => .error e
    | .ok result =>
      .ok { affected_population := impactSummary.population.total
            affected_households := impactSummary.population.households
            vulnerable_population := impactSummary.population.elderly
              + impactSummary.population.children + impactSummary.population.disabled
            affected_hospitals := impactSummary.by_type "hospital"
            affected_shelters := impactSummary.by_type "emergency_shelter"
            affected_critical_infrastructure := impactSummary.infrastructure_total
            estimated_economic_loss := economicLoss
            affected_area_sq_km := impactSummary.evacuation_zones.area_10km_sq_km
            evacuation_zone_1km := impactSummary.evacuation_zones.zone_1km
            evacuation_zone_5km := impactSummary.evacuation_zones.zone_5km
            evacuation_zone_10km := impactSummary.evacuation_zones.zone_10km
            assessment_id := result.id
            assessment_time := result.assessment_time
            infrastructure_details := impactSummary.infrastructure_details
            vulnerable_elderly := impactSummary.population.elderly
            vulnerable_children := impactSummary.population.children
            vulnerable_disabled := impactSummary.population.disabled }

/-- A run in which the disaster-details query of the economic-loss
sub-computation fails while every other query succeeds. -/
def lossFailureEnv : OrchestratorEnv Unit :=
  { populationResult := .ok ⟨some 1200, some 400, some 100, some 200, some 50, 3⟩
    infrastructureResult := .ok []
    zonesResult := .ok ⟨(), (), (), 10, 50, 100⟩
    disasterRowResult := .error "connection terminated unexpectedly"
    insertResult := .ok ⟨17, 1700000000⟩ }

/-- C1 counterexample: in `lossFailureEnv` the economic-loss sub-computation
fails (its query is rejected), yet `calculateFullImpact` succeeds and returns
— after storing — a fully-structured assessment whose loss silently defaults
to 0: `assess` is not all-or-nothing. -/
theorem calculateFullImpact_swallowed_failure :
    lossFailureEnv.disasterRowResult = Except.error "connection terminated unexpectedly"
    ∧ calculateFullImpact lossFailureEnv
        = Except.ok { affected_population := 1200
                      affected_households := 400
                      vulnerable_population := 350
                      affected_hospitals := 0
                      affected_shelters := 0
                      affected_critical_infrastructure := 0
                      estimated_economic_loss := 0
                      affected_area_sq_km := 100
                      evacuation_zone_1km := ()
                      evacuation_zone_5km := ()
                      evacuation_zone_10km := ()
                      assessment_id := 17
                      assessment_time := 1700000000
                      infrastructure_details := []
                      vulnerable_elderly := 100
                      vulnerable_children := 200
                      vulnerable_disabled := 50 } := by
  constructor
  · rfl
  · rfl

/-- C1 (amended): failure of the population aggregation, the infrastructure
search or the zone generation (the three queries behind
`getDisasterImpactSummary`), or of the final insert, aborts the whole
assessment with an error; but a failure inside the economic-loss estimation
is caught by that function's own catch block, so the assessment can still
succeed — with the estimated loss silently defaulted to 0. -/
theorem calculateFullImpact_failure_propagation {Z : Type} (env : OrchestratorEnv Z) :
    (∀ e, env.populationResult = .error e → calculateFullImpact env = .error e)
    ∧ (∀ e, env.infrastructureResult = .error e →
        ∀ a, calculateFullImpact env ≠ .ok a)
    ∧ (∀ e, env.zonesResult = .error e → ∀ a, calculateFullImpact env ≠ .ok a)
    ∧ (∀ e, env.insertResult = .error e → ∀ a, calculateFullImpact env ≠ .ok a)
    ∧ (∀ e, env.disasterRowResult = .error e →
        ∀ a, calculateFullImpact env = .ok a → a.estimated_economic_loss = 0) := by
  refine ⟨?_, ?_, ?_, ?_, ?_⟩
  · intro e he
    simp [calculateFullImpact, getDisasterImpactSummary, he]
  · intro e he a ha
    cases hp : env.populationResult with
    | error e' => simp [calculateFullImpact, getDisasterImpactSummary, hp] at ha
    | ok population =>
        simp [calculateFullImpact, getDisasterImpactSummary, hp, he] at ha
  · intro e he a ha
    cases hp : env.populationResult with
    | error e' => simp [calculateFullImpact, getDisasterImpactSummary, hp] at ha
    | ok population =>
        cases hi : env.infrastructureResult with
        | error e' => simp [calculateFullImpact, getDisasterImpactSummary, hp, hi] at ha
        | ok infrastructure =>
            simp [calculateFullImpact, getDisasterImpactSummary, hp, hi, he] at ha
  · intro e he a ha
    cases hp : env.populationResult with
    | error e' => simp [calculateFullImpact, getDisasterImpactSummary, hp] at ha
    | ok population =>
        cases hi : env.infrastructureResult with
        | error e' => simp [calculateFullImpact, getDisasterImpactSummary, hp, hi] at ha
        | ok infrastructure =>
            cases hz : env.zonesResult with
            | error e' =>
                simp [calculateFullImpact, getDisasterImpactSummary, hp, hi, hz] at ha
            | ok zones =>
                simp [calculateFullImpact, getDisasterImpactSummary, hp, hi, hz, he] at ha
  · intro e he a ha
    cases hp : env.populationResult with
    | error e' => simp [calculateFullImpact, getDisasterImpactSummary, hp] at ha
    | ok population =>
        cases hi : env.infrastructureResult with
        | error e' => simp [calculateFullImpact, getDisasterImpactSummary, hp, hi] at ha
        | ok infrastructure =>
            cases hz : env.zonesResult with
            | error e' =>
                simp [calculateFullImpact, getDisasterImpactSummary, hp, hi, hz] at ha
            | ok zones =>
                cases hins : env.insertResult with
                | error e' =>
                    simp [calculateFullImpact, getDisasterImpactSummary,
                      hp, hi, hz, hins] at ha
                | ok result =>
                    have hloss : estimateEconomicLoss env
                        ((summaryPopulation population).total : ℚ) = 0 := by
                      simp [estimateEconomicLoss, he]
                    simp [calculateFullImpact, getDisasterImpactSummary,
                      hp, hi, hz, hins, hloss] at ha
                    simp [← ha]

/-- A run whose population-aggregation query fails. -/
def popFailureEnv : OrchestratorEnv Unit :=
  { populationResult := .error "boom"
    infrastructureResult := .ok []
    zonesResult := .ok ⟨(), (), (), 10, 50, 100⟩
    disasterRowResult := .ok (some ⟨"earthquake", some "severe", some 10⟩)
    insertResult := .ok ⟨17, 1700000000⟩ }

/-- Witness for `calculateFullImpact_failure_propagation`: a failed
population aggregation aborts the whole assessment. -/
theorem calculateFullImpact_failure_propagation_witness :
    calculateFullImpact popFailureEnv = Except.error "boom" :=
  (calculateFullImpact_failure_propagation popFailureEnv).1 "boom" rfl

/-! ## Hotspot clustering (`spatialAnalysis.js`, `calculateDisasterHotspots`
lines 226-252).  The query delegates the clustering itself to the PostGIS
window function `ST_ClusterKMeans(centroid, k)`, which is not part of this
repository; the k-means computation is therefore modelled from the spec
(§4.6): deterministic seeding over the distinct points, nearest-center
assignment, and capped Lloyd iteration with a fixpoint stop.  The rest of the
query — grouping the rows by cluster id, counting each group, taking the
centroid of the collected points and ordering by count descending (lines
236-242) — is translated directly. -/

/-- A disaster centroid in the plane of decimal-degree coordinates. -/
abbrev Pt := ℚ × ℚ

/-- Squared planar distance between two centroids. -/
def sqDist (p q : Pt) : ℚ := (p.1 - q.1) ^ 2 + (p.2 - q.2) ^ 2

/-- Best (nearest, earliest on ties) center for `p` among `c :: cs`:
the pair of its index and its squared distance. -/
def bestCenter (p : Pt) : Pt → List Pt → ℕ × ℚ
  | c, [] => (0, sqDist p c)
  | c, c' :: cs =>
      let b := bestCenter p c' cs
      if b.2 < sqDist p c then (b.1 + 1, b.2) else (0, sqDist p c)

/-- Index of the nearest center (0 for no centers). -/
def assignIdx (cs : List Pt) (p : Pt) : ℕ :=
  match cs with
  | [] => 0
  | c :: cs' => (bestCenter p c cs').1

/-- The points of `ps` assigned to center `i`. -/
def assignedTo (cs ps : List Pt) (i : ℕ) : List Pt :=
  ps.filter (fun p => assignIdx cs p == i)

/-- Arithmetic mean of a list of points (`ST_Centroid` of collected points). -/
def meanPt (ps : List Pt) : Pt :=
  ((ps.map Prod.fst).sum / ps.length, (ps.map Prod.snd).sum / ps.length)

/-- One Lloyd update: every center moves to the mean of its assigned points;
a center with no assigned points keeps its position. -/
def updateCenters (cs ps : List Pt) : List Pt :=
  (List.range cs.length).map (fun i =>
    let members := assignedTo cs ps i
    if members.isEmpty then cs.getD i (0, 0) else meanPt members)

/-- Capped Lloyd iteration, stopping when the assignment (hence the centers)
no longer changes. -/
def kmeansIter : ℕ → List Pt → List Pt → List Pt
  | 0, cs, _ => cs
  | n + 1, cs, ps =>
      let cs' := updateCenters cs ps
      if cs' = cs then cs else kmeansIter n cs' ps

/-- Function `calculateDisasterHotspots` (lines 226-252) over the centroid list
selected by the WHERE clause (matching type, five-year window): run k-means
with `clusters` requested clusters, group the points by assigned cluster,
report each non-empty cluster's centroid and count, ordered by count
descending.  Clusters that receive no points produce no row in the
`GROUP BY` result. -/
def calculateDisasterHotspots (ps : List Pt) (clusters : ℕ) : List (Pt × ℕ) :=
  let seeds := ps.dedup.take clusters
  let cs := kmeansIter 100 seeds ps
  let grouped := (List.range cs.length).filterMap (fun i =>
    let members := assignedTo cs ps i
    if members.isEmpty then none else some (meanPt members, members.length))
  grouped.insertionSort (fun a b => b.2 ≤ a.2)

theorem sqDist_nonneg (p q : Pt) : 0 ≤ sqDist p q := by
  unfold sqDist
  positivity

theorem sqDist_self (p : Pt) : sqDist p p = 0 := by
  simp [sqDist]

theorem eq_of_sqDist_eq_zero {p q : Pt} (h : sqDist p q = 0) : p = q := by
  unfold sqDist at h
  have h1 : (p.1 - q.1) ^ 2 = 0 := by nlinarith [sq_nonneg (p.1 - q.1), sq_nonneg (p.2 - q.2)]
  have h2 : (p.2 - q.2) ^ 2 = 0 := by nlinarith [sq_nonneg (p.1 - q.1), sq_nonneg (p.2 - q.2)]
  have e1 : p.1 = q.1 := sub_eq_zero.mp ((pow_eq_zero_iff (by norm_num)).mp h1)
  have e2 : p.2 = q.2 := sub_eq_zero.mp ((pow_eq_zero_iff (by norm_num)).mp h2)
  exact Prod.ext e1 e2

theorem bestCenter_fst_lt (p : Pt) : ∀ (cs : List Pt) (c : Pt),
    (bestCenter p c cs).1 < cs.length + 1 := by
  intro cs
  induction cs with
  | nil => intro c; simp [bestCenter]
  | cons c' cs ih =>
      intro c
      simp only [bestCenter]
      split
      · exact Nat.succ_lt_succ (ih c')
      · simp

theorem bestCenter_snd_eq (p : Pt) : ∀ (cs : List Pt) (c : Pt),
    (bestCenter p c cs).2 = sqDist p ((c :: cs).getD (bestCenter p c cs).1 (0, 0)) := by
  intro cs
  induction cs with
  | nil => intro c; simp [bestCenter]
  | cons c' cs ih =>
      intro c
      simp only [bestCenter]
      split
      · rw [List.getD_cons_succ]
        exact ih c'
      · simp

theorem bestCenter_snd_min (p : Pt) : ∀ (cs : List Pt) (c : Pt),
    ∀ q ∈ c :: cs, (bestCenter p c cs).2 ≤ sqDist p q := by
  intro cs
  induction cs with
  | nil =>
      intro c q hq
      rw [List.mem_singleton] at hq
      subst hq
      simp [bestCenter]
  | cons c' cs ih =>
      intro c q hq
      rcases List.mem_cons.mp hq with hq | hq
      · subst hq
        simp only [bestCenter]
        split
        · next hlt => exact le_of_lt hlt
        · simp
      · have hmin := ih c' q hq
        simp only [bestCenter]
        split
        · exact hmin
        · next hnlt => exact le_trans (not_lt.mp hnlt) hmin

theorem assignIdx_lt (cs : List Pt) (p : Pt) (h : cs ≠ []) :
    assignIdx cs p < cs.length := by
  cases cs with
  | nil => exact absurd rfl h
  | cons c cs' => exact bestCenter_fst_lt p cs' c

theorem getD_assignIdx {cs : List Pt} {p : Pt} (hmem : p ∈ cs) :
    cs.getD (assignIdx cs p) (0, 0) = p := by
  cases cs with
  | nil => cases hmem
  | cons c cs' =>
      have hmin := bestCenter_snd_min p cs' c p hmem
      rw [sqDist_self] at hmin
      have heq := bestCenter_snd_eq p cs' c
      have hz : sqDist p ((c :: cs').getD (bestCenter p c cs').1 (0, 0)) = 0 :=
        le_antisymm (heq ▸ hmin) (sqDist_nonneg _ _)
      exact (eq_of_sqDist_eq_zero hz).symm

theorem assignIdx_eq_iff {cs : List Pt} (hnd : cs.Nodup) {p : Pt} (hmem : p ∈ cs)
    {i : ℕ} (hi : i < cs.length) :
    assignIdx cs p = i ↔ cs.getD i (0, 0) = p := by
  constructor
  · intro h
    rw [← h]
    exact getD_assignIdx hmem
  · intro h
    have hlt : assignIdx cs p < cs.length :=
      assignIdx_lt cs p (by rintro rfl; cases hmem)
    have h1 : cs.getD (assignIdx cs p) (0, 0) = cs.getD i (0, 0) := by
      rw [getD_assignIdx hmem, h]
    rw [List.getD_eq_getElem _ _ hlt, List.getD_eq_getElem _ _ hi] at h1
    exact (List.Nodup.getElem_inj_iff hnd).mp h1

theorem assignedTo_all_eq {cs ps : List Pt} (hnd : cs.Nodup)
    (hsub : ∀ q ∈ ps, q ∈ cs) {i : ℕ} (hi : i < cs.length) :
    ∀ q ∈ assignedTo cs ps i, q = cs.getD i (0, 0) := by
  intro q hq
  rw [assignedTo, List.mem_filter] at hq
  obtain ⟨hqs, hqi⟩ := hq
  rw [beq_iff_eq] at hqi
  exact ((assignIdx_eq_iff hnd (hsub q hqs) hi).mp hqi).symm

theorem assignedTo_mem {cs ps : List Pt} (hnd : cs.Nodup)
    (hsup : ∀ c ∈ cs, c ∈ ps) {i : ℕ} (hi : i < cs.length) :
    cs.getD i (0, 0) ∈ assignedTo cs ps i := by
  have hmm : cs.getD i (0, 0) ∈ cs := by
    rw [List.getD_eq_getElem _ _ hi]
    exact List.getElem_mem hi
  rw [assignedTo, List.mem_filter]
  refine ⟨hsup _ hmm, ?_⟩
  rw [beq_iff_eq]
  exact (assignIdx_eq_iff hnd hmm hi).mpr rfl

theorem meanPt_const {l : List Pt} {x : Pt} (hne : l ≠ []) (h : ∀ y ∈ l, y = x) :
    meanPt l = x := by
  have hlen : (l.length : ℚ) ≠ 0 :=
    Nat.cast_ne_zero.mpr (List.length_pos.mpr hne).ne'
  have h1 : l.map Prod.fst = List.replicate l.length x.1 := by
    rw [List.eq_replicate_iff]
    refine ⟨by simp, ?_⟩
    intro b hb
    obtain ⟨y, hy, rfl⟩ := List.mem_map.mp hb
    rw [h y hy]
  have h2 : l.map Prod.snd = List.replicate l.length x.2 := by
    rw [List.eq_replicate_iff]
    refine ⟨by simp, ?_⟩
    intro b hb
    obtain ⟨y, hy, rfl⟩ := List.mem_map.mp hb
    rw [h y hy]
  unfold meanPt
  rw [h1, h2, List.sum_replicate, List.sum_replicate, nsmul_eq_mul, nsmul_eq_mul,
    mul_div_cancel_left₀ _ hlen, mul_div_cancel_left₀ _ hlen]

theorem updateCenters_fixed {cs ps : List Pt} (hnd : cs.Nodup)
    (hsub : ∀ q ∈ ps, q ∈ cs) (hsup : ∀ c ∈ cs, c ∈ ps) :
    updateCenters cs ps = cs := by
  apply List.ext_getElem
  · simp [updateCenters]
  · intro n h1 h2
    simp only [updateCenters, List.getElem_map, List.getElem_range]
    have hn : n < cs.length := h2
    have hmem := assignedTo_mem hnd hsup hn
    have hne : assignedTo cs ps n ≠ [] := by
      intro hh
      rw [hh] at hmem
      cases hmem
    rw [if_neg (by simpa [List.isEmpty_iff] using hne)]
    rw [meanPt_const hne (assignedTo_all_eq hnd hsub hn), List.getD_eq_getElem _ _ hn]

theorem kmeansIter_fixed {cs ps : List Pt} (h : updateCenters cs ps = cs) :
    ∀ n, kmeansIter n cs ps = cs := by
  intro n
  cases n with
  | zero => rfl
  | succ n => simp [kmeansIter, h]

theorem filterMap_eq_map_of_some {α β : Type} (f : α → Option β) (g : α → β) :
    ∀ l : List α, (∀ a ∈ l, f a = some (g a)) → l.filterMap f = l.map g := by
  intro l
  induction l with
  | nil => intro _; rfl
  | cons a l ih =>
      intro h
      rw [List.filterMap_cons, h a (List.mem_cons_self a l), List.map_cons,
        ih (fun b hb => h b (List.mem_cons_of_mem a hb))]

/-- C8: when the requested cluster count is at least the number of distinct
participating centroids, clustering succeeds (the function is total, no
error) and the clusters degenerate to singletons: the result has exactly one
non-empty cluster per distinct centroid — not `clusters` many — and every
reported cluster is non-empty. -/
theorem hotspots_degenerate (ps : List Pt) (clusters : ℕ)
    (hk : ps.dedup.length ≤ clusters) :
    (calculateDisasterHotspots ps clusters).length = ps.dedup.length
    ∧ ∀ c ∈ calculateDisasterHotspots ps clusters, 0 < c.2 := by
  have hseeds : ps.dedup.take clusters = ps.dedup := List.take_of_length_le hk
  have hnd := List.nodup_dedup ps
  have hsub : ∀ q ∈ ps, q ∈ ps.dedup := fun q hq => List.mem_dedup.mpr hq
  have hsup : ∀ c ∈ ps.dedup, c ∈ ps := fun c hc => List.mem_dedup.mp hc
  have hfix := updateCenters_fixed hnd hsub hsup
  have hiter : kmeansIter 100 (ps.dedup.take clusters) ps = ps.dedup := by
    rw [hseeds]
    exact kmeansIter_fixed hfix 100
  have hsome : ∀ i ∈ List.range ps.dedup.length,
      (fun i =>
        let members := assignedTo ps.dedup ps i
        if members.isEmpty then none else some (meanPt members, members.length)) i
        = some ((fun i => (meanPt (assignedTo ps.dedup ps i),
            (assignedTo ps.dedup ps i).length)) i) := by
    intro i hi
    rw [List.mem_range] at hi
    have hmem := assignedTo_mem hnd hsup hi
    have hne : assignedTo ps.dedup ps i ≠ [] := by
      intro hh
      rw [hh] at hmem
      cases hmem
    simp [List.isEmpty_iff, hne]
  have hgrouped : calculateDisasterHotspots ps clusters
      = ((List.range ps.dedup.length).map (fun i =>
          (meanPt (assignedTo ps.dedup ps i),
            (assignedTo ps.dedup ps i).length))).insertionSort
        (fun a b => b.2 ≤ a.2) := by
    simp only [calculateDisasterHotspots]
    rw [hiter, filterMap_eq_map_of_some _ _ _ hsome]
  constructor
  · rw [hgrouped, (List.perm_insertionSort _ _).length_eq, List.length_map,
      List.length_range]
  · intro c hc
    rw [hgrouped, (List.perm_insertionSort _ _).mem_iff] at hc
    obtain ⟨i, hi, rfl⟩ := List.mem_map.mp hc
    rw [List.mem_range] at hi
    have hmem := assignedTo_mem hnd hsup hi
    exact List.length_pos.mpr (by
      intro hh
      rw [hh] at hmem
      cases hmem)

/-- Witness for `hotspots_degenerate`: requesting 5 clusters on 3 distinct
points yields exactly 3 non-empty clusters. -/
theorem hotspots_degenerate_witness :
    (calculateDisasterHotspots [((0 : ℚ), (0 : ℚ)), (1, 0), (0, 1)] 5).length = 3 := by
  have h := (hotspots_degenerate [((0 : ℚ), (0 : ℚ)), (1, 0), (0, 1)] 5 (by decide)).1
  rw [h]
  decide
